import Mathlib

/-!
Shallow embedding of `src/bedrock/main.py`: the provisioning helpers
(the trust and permission policy documents of `create_role`), the two readiness
poll loops, the `apply_guardrail` score extraction (`check`), the guardrail
trace reporter (`show_guardrail_trace`), and the streamed-invocation
reading loop, together with theorems settling the specification claims.
-/

namespace Bedrock

/-- The module-level configuration globals of `main.py`
(`REGION`, `FOUNDATION_MODEL`, `ACCOUNT_ID`, lines 93-96), gathered into an
explicit record so that theorems can quantify over them. -/
structure Config where
  region : String
  foundationModel : String
  accountId : String
deriving DecidableEq, Repr

/-- The concrete values assigned to the globals in `main.py` lines 93-96. -/
def defaultConfig : Config :=
  { region := "us-east-1"
  , foundationModel := "anthropic.claude-3-haiku-20240307-v1:0"
  , accountId := "637423356581" }

/-- The `guardrail_arn` computed in `create_role` (line 17):
`f"arn:aws:bedrock:{REGION}:{ACCOUNT_ID}:guardrail/{GUARDRAIL_ID}"`. -/
def guardrailArn (cfg : Config) (guardrail_id : String) : String :=
  "arn:aws:bedrock:" ++ cfg.region ++ ":" ++ cfg.accountId ++ ":guardrail/" ++ guardrail_id

/-- The `model_arn` computed in `create_role` (line 18):
`f"arn:aws:bedrock:{REGION}::foundation-model/{FOUNDATION_MODEL}"`. -/
def modelArn (cfg : Config) : String :=
  "arn:aws:bedrock:" ++ cfg.region ++ "::foundation-model/" ++ cfg.foundationModel

/-- The `AWS:SourceArn` pattern used in the trust policy condition
(line 31): `f"arn:aws:bedrock:{REGION}:{ACCOUNT_ID}:agent/*"`. -/
def agentSourceArnPattern (cfg : Config) : String :=
  "arn:aws:bedrock:" ++ cfg.region ++ ":" ++ cfg.accountId ++ ":agent/*"

/-- The single statement of the trust policy dict (`main.py` lines 25-33):
`Effect`, `Principal.Service`, `Action`, and the two condition entries
`StringEquals.aws:SourceAccount` and `ArnLike.AWS:SourceArn`. -/
structure TrustStatement where
  effect : String
  principalService : String
  action : String
  condSourceAccount : String
  condSourceArn : String
deriving DecidableEq, Repr

/-- The `trust_policy` dict built in `create_role` (lines 23-34). -/
structure TrustPolicy where
  version : String
  statement : List TrustStatement
deriving DecidableEq, Repr

/-- All string values occurring in a trust statement, used to express
"the policy references ARN X". -/
def TrustStatement.strings (s : TrustStatement) : List String :=
  [s.effect, s.principalService, s.action, s.condSourceAccount, s.condSourceArn]

/-- All string values occurring in a trust policy document. -/
def TrustPolicy.strings (p : TrustPolicy) : List String :=
  p.version :: p.statement.flatMap TrustStatement.strings

/-- The trust policy document `create_role` builds (lines 23-34).  Note the
dict mentions only `REGION` and `ACCOUNT_ID`; the guardrail id is not used. -/
def trust_policy (cfg : Config) : TrustPolicy :=
  { version := "2012-10-17"
  , statement :=
      [ { effect := "Allow"
        , principalService := "bedrock.amazonaws.com"
        , action := "sts:AssumeRole"
        , condSourceAccount := cfg.accountId
        , condSourceArn := agentSourceArnPattern cfg } ] }

/-- A JSON policy `Action` value: `main.py` uses a list of actions in the
first permission statement and a bare string in the second. -/
inductive PolicyAction
  | one (a : String)
  | many (as : List String)
deriving DecidableEq, Repr

/-- The actions named by a policy `Action` value. -/
def PolicyAction.toList : PolicyAction → List String
  | .one a => [a]
  | .many as => as

/-- One statement of the `perm_policy` dict (lines 40-55). -/
structure PermStatement where
  sid : String
  effect : String
  action : PolicyAction
  resource : String
deriving DecidableEq, Repr

/-- The `perm_policy` dict built in `create_role` (lines 37-56). -/
structure PermPolicy where
  version : String
  statement : List PermStatement
deriving DecidableEq, Repr

/-- The permission policy document `create_role` builds (lines 37-56):
invoke actions on the model ARN, apply-guardrail on the guardrail ARN. -/
def perm_policy (cfg : Config) (guardrail_id : String) : PermPolicy :=
  { version := "2012-10-17"
  , statement :=
      [ { sid := "InvokeFoundationModels"
        , effect := "Allow"
        , action := .many ["bedrock:InvokeModel", "bedrock:InvokeModelWithResponseStream"]
        , resource := modelArn cfg }
      , { sid := "ApplyGuardrail"
        , effect := "Allow"
        , action := .one "bedrock:ApplyGuardrail"
        , resource := guardrailArn cfg guardrail_id } ] }

/-- The two policy documents produced by `create_role(guardrail_id)`
(lines 10-70): the trust policy attached at role creation and the inline
permission policy. -/
structure RolePolicies where
  trust : TrustPolicy
  perm : PermPolicy
deriving DecidableEq, Repr

/-- The function `create_role` (lines 10-70), restricted to the policy documents it
builds from its input: the IAM calls themselves are external. -/
def create_role (cfg : Config) (guardrail_id : String) : RolePolicies :=
  { trust := trust_policy cfg, perm := perm_policy cfg guardrail_id }

/-- A permission policy grants action `a` on resource `r` when some `Allow`
statement lists `a` among its actions and names `r` as its resource. -/
def PermPolicy.grants (p : PermPolicy) (a r : String) : Prop :=
  ∃ st ∈ p.statement, st.effect = "Allow" ∧ a ∈ st.action.toList ∧ st.resource = r

theorem String.mem_toList_append {c : Char} {s t : String} :
    c ∈ (s ++ t).toList ↔ c ∈ s.toList ∨ c ∈ t.toList := by
  simp [String.toList, String.data_append]

/-! Readiness poll loops: (`main.py` lines 300-307 and 340-347) -/

/-- Outcome of the agent-preparation poll loop: `success` models `break` on
`"PREPARED"`, `failure` models `raise RuntimeError` on `"FAILED"`. -/
inductive PollOutcome
  | success
  | failure
deriving DecidableEq, Repr

/-- The agent-preparation poll loop (`main.py` lines 300-307):

    while True:
        status = ag.get_agent(agentId=agent_id)["agent"]["agentStatus"]
        if status == "PREPARED": break
        if status == "FAILED":   raise RuntimeError(...)
        time.sleep(15)

Input: the successive status values returned by `get_agent`.  Output: the
outcome together with how many status fetches were performed; `none` means
the supplied statuses were exhausted with the loop still running. -/
def agentPreparePoll : List String → Option (PollOutcome × Nat)
  | [] => none
  | s :: rest =>
    if s = "PREPARED" then some (.success, 1)
    else if s = "FAILED" then some (.failure, 1)
    else match agentPreparePoll rest with
      | some (o, n) => some (o, n + 1)
      | none => none

/-- The alias readiness poll loop (`main.py` lines 340-342):

    while ag.get_agent_alias(...)["agentAlias"]["agentAliasStatus"] != "PREPARED":
        time.sleep(5)

Each loop-condition evaluation is one status fetch; the loop only exits on
`"PREPARED"`.  Returns the number of fetches performed when the loop
terminates, `none` when the supplied statuses run out first. -/
def aliasReadinessPoll : List String → Option Nat
  | [] => none
  | s :: rest =>
    if s ≠ "PREPARED" then (aliasReadinessPoll rest).map (· + 1)
    else some 1

/-- Total `get_agent_alias` calls in the alias readiness section
(lines 340-347): the fetches of the poll loop plus the one extra
`ag.get_agent_alias(...)` at line 344 issued after the loop exits, used to
print the routed agent version. -/
def aliasSectionFetchCount (statuses : List String) : Option Nat :=
  (aliasReadinessPoll statuses).map (· + 1)

/-! Guardrail grounding and relevance check: (`main.py` lines 372-395) -/

/-- One entry of `resp["assessments"][i]["contextualGroundingPolicy"]["filters"]`;
only its `score` is read by `check`. -/
structure GroundingFilter where
  score : Rat
deriving DecidableEq, Repr

/-- The `contextualGroundingPolicy` section of an assessment. -/
structure ContextualGroundingPolicy where
  filters : List GroundingFilter
deriving DecidableEq, Repr

/-- One element of `resp["assessments"]`. -/
structure GuardrailAssessment where
  contextualGroundingPolicy : ContextualGroundingPolicy
deriving DecidableEq, Repr

/-- The fields of the `apply_guardrail` response read by `check`
(lines 385-389): the assessments list and the overall `action`. -/
structure ApplyGuardrailResponse where
  assessments : List GuardrailAssessment
  action : String
deriving DecidableEq, Repr

/-- What `check` reports (lines 390-395): the overall action, the grounding
score and the relevance score. -/
structure GroundingCheckReport where
  action : String
  g_score : Rat
  r_score : Rat
deriving DecidableEq, Repr

/-- The inner `check` of `check_grounding_and_relevance` (lines 372-395),
restricted to how it reads the `apply_guardrail` response:

    cg      = resp["assessments"][0]["contextualGroundingPolicy"]["filters"]
    g_score = cg[0]["score"]
    r_score = cg[1]["score"]
    action  = resp["action"]

A missing `assessments[0]`, `cg[0]` or `cg[1]` raises `IndexError` in
Python, modelled as `none`. -/
def check (resp : ApplyGuardrailResponse) : Option GroundingCheckReport :=
  match resp.assessments with
  | [] => none
  | a0 :: _ =>
    match a0.contextualGroundingPolicy.filters with
    | f0 :: f1 :: _ => some ⟨resp.action, f0.score, f1.score⟩
    | _ => none

/-! Guardrail trace reporting and the stream-reading loop:
(`main.py` lines 401-415 and 441-451) -/

/-- An assessment payload is surfaced verbatim by `show_guardrail_trace`
(`print(f"{side}: policy={a}")`); its internals are never inspected, so it
is embedded as an opaque string. -/
abbrev Assessment := String

/-- The `guardrailTrace` object (line 403): overall `action` plus the two
assessment lists; `g.get("inputAssessments", [])` defaults a missing key to
the empty list, so the fields are plain lists. -/
structure GuardrailTrace where
  action : String
  inputAssessments : List Assessment
  outputAssessments : List Assessment
deriving DecidableEq, Repr

/-- The inner `trace_part["trace"]` dict, which may or may not hold a
`guardrailTrace` key (line 450). -/
structure InnerTrace where
  guardrailTrace : Option GuardrailTrace
deriving DecidableEq, Repr

/-- A `TracePart` object (`event["trace"]`): `trace_part.get("trace", {})`
at line 450 treats a missing `trace` key as the empty dict, hence `Option`. -/
structure TracePart where
  trace : Option InnerTrace
deriving DecidableEq, Repr

/-- Which side of the conversation an assessment was reported for
(the `side` loop variable of `show_guardrail_trace`, lines 408-409). -/
inductive Side
  | INPUT
  | OUTPUT
deriving DecidableEq, Repr

/-- What one `show_guardrail_trace` call prints (lines 401-415): the
overall action, then one line per assessment tagged with its side. -/
structure TraceReport where
  action : String
  lines : List (Side × Assessment)
deriving DecidableEq, Repr

/-- The function `show_guardrail_trace(trace_part)` (lines 401-415): reads
`trace_part["trace"]["guardrailTrace"]` (a `KeyError`, modelled `none`, if
either key is missing), prints the overall action, then iterates the INPUT
assessments in order followed by the OUTPUT assessments in order. -/
def show_guardrail_trace (trace_part : TracePart) : Option TraceReport :=
  match trace_part.trace with
  | none => none
  | some inner =>
    match inner.guardrailTrace with
    | none => none
    | some g =>
      some { action := g.action
           , lines := g.inputAssessments.map (fun a => (Side.INPUT, a))
                   ++ g.outputAssessments.map (fun a => (Side.OUTPUT, a)) }

/-- One event of `response["completion"]` (line 443): it may hold a
`"chunk"` key (whose decoded bytes are embedded as the decoded string) and
it may hold a `"trace"` key; the two keys are independent. -/
structure StreamEvent where
  chunk : Option String
  trace : Option TracePart
deriving DecidableEq, Repr

/-- The mutable state of the stream-reading loop (lines 441-451):
`completion_text` (initialised `""` at line 441 and never assigned again),
the text written to stdout by the chunk branch, and the reports printed by
`show_guardrail_trace` calls, in order. -/
structure LoopState where
  completion_text : String
  stdout : String
  reports : List TraceReport
deriving DecidableEq, Repr

/-- The loop state before the first event: `completion_text = ""`,
nothing printed yet. -/
def initialLoopState : LoopState :=
  { completion_text := "", stdout := "", reports := [] }

/-- One iteration of the stream-reading loop (lines 443-451):

    if "chunk" in event:
        sys.stdout.write(event["chunk"]["bytes"].decode())
    if "trace" in event:
        trace_part = event["trace"]
        if "guardrailTrace" in trace_part.get("trace", {}):
            show_guardrail_trace(trace_part)

Two independent `if`s: the guard of the inner `if` holds exactly when
`show_guardrail_trace` succeeds. -/
def processEvent (st : LoopState) (event : StreamEvent) : LoopState :=
  let st1 :=
    match event.chunk with
    | some s => { st with stdout := st.stdout ++ s }
    | none => st
  match event.trace with
  | some trace_part =>
    match show_guardrail_trace trace_part with
    | some r => { st1 with reports := st1.reports ++ [r] }
    | none => st1
  | none => st1

/-- The whole `for event in response["completion"]` loop (lines 441-451),
run over a finite event sequence in delivery order. -/
def runLoop (events : List StreamEvent) : LoopState :=
  events.foldl processEvent initialLoopState

/-- Spec-side definition for comparison: the concatenation, in delivery
order, of the decoded text of every chunk event in the stream. -/
def chunkConcat : List StreamEvent → String
  | [] => ""
  | e :: rest =>
    match e.chunk with
    | some s => s ++ chunkConcat rest
    | none => chunkConcat rest

/-! Claim C1 -/

/-- C1 counterexample: at guardrail id `"gidA"`, the trust policy built by
`create_role` nowhere references the guardrail ARN derived from `"gidA"`,
and changing the id to `"gidB"` changes the trust policy not at all (so no
segment of it tracks the guardrail id). -/
theorem C1_counterexample :
    guardrailArn defaultConfig "gidA" ∉ ((create_role defaultConfig "gidA").trust).strings ∧
    (create_role defaultConfig "gidA").trust = (create_role defaultConfig "gidB").trust :=
  ⟨by decide, rfl⟩

/-- C1 (amended): the trust policy `create_role` builds does not depend on
the guardrail id — any two ids give identical documents — and its single
statement is scoped to the account id of the caller (the
`aws:SourceAccount` condition) and to the any-agent source ARN pattern.
The guardrail ARN derived from the id appears instead in the permission
policy, as the resource of its `ApplyGuardrail` statement. -/
theorem C1_trust_policy (cfg : Config) (g g' : String) :
    (create_role cfg g).trust = (create_role cfg g').trust ∧
    (create_role cfg g).trust.statement =
      [{ effect := "Allow", principalService := "bedrock.amazonaws.com"
       , action := "sts:AssumeRole", condSourceAccount := cfg.accountId
       , condSourceArn := agentSourceArnPattern cfg }] ∧
    (create_role cfg g).perm.statement.map PermStatement.resource =
      [modelArn cfg, guardrailArn cfg g] :=
  ⟨rfl, rfl, rfl⟩

/-! Claim C2 -/

/-- C2: the permission policy built by `create_role` grants the two
invoke-model actions on exactly the model ARN, grants
`bedrock:ApplyGuardrail` on exactly the guardrail ARN, grants nothing on
any other resource, and (provided no input contains the wildcard
character) no resource in it is wildcarded. -/
theorem C2_perm_policy (cfg : Config) (G : String)
    (hG : '*' ∉ G.toList) (hM : '*' ∉ cfg.foundationModel.toList)
    (hR : '*' ∉ cfg.region.toList) (hA : '*' ∉ cfg.accountId.toList) :
    (create_role cfg G).perm.grants "bedrock:InvokeModel" (modelArn cfg) ∧
    (create_role cfg G).perm.grants "bedrock:InvokeModelWithResponseStream" (modelArn cfg) ∧
    (create_role cfg G).perm.grants "bedrock:ApplyGuardrail" (guardrailArn cfg G) ∧
    (∀ a r, (create_role cfg G).perm.grants a r →
      r = modelArn cfg ∨ r = guardrailArn cfg G) ∧
    (∀ r, (create_role cfg G).perm.grants "bedrock:InvokeModel" r → r = modelArn cfg) ∧
    (∀ r, (create_role cfg G).perm.grants "bedrock:InvokeModelWithResponseStream" r →
      r = modelArn cfg) ∧
    (∀ r, (create_role cfg G).perm.grants "bedrock:ApplyGuardrail" r →
      r = guardrailArn cfg G) ∧
    (∀ st ∈ (create_role cfg G).perm.statement, '*' ∉ st.resource.toList) := by
  have hlit1 : ('*' : Char) ∉ "arn:aws:bedrock:".toList := by decide
  have hlit2 : ('*' : Char) ∉ ":".toList := by decide
  have hlit3 : ('*' : Char) ∉ ":guardrail/".toList := by decide
  have hlit4 : ('*' : Char) ∉ "::foundation-model/".toList := by decide
  refine ⟨?_, ?_, ?_, ?_, ?_, ?_, ?_, ?_⟩
  · exact ⟨⟨"InvokeFoundationModels", "Allow",
      .many ["bedrock:InvokeModel", "bedrock:InvokeModelWithResponseStream"], modelArn cfg⟩,
      by simp [create_role, perm_policy], rfl, by simp [PolicyAction.toList], rfl⟩
  · exact ⟨⟨"InvokeFoundationModels", "Allow",
      .many ["bedrock:InvokeModel", "bedrock:InvokeModelWithResponseStream"], modelArn cfg⟩,
      by simp [create_role, perm_policy], rfl, by simp [PolicyAction.toList], rfl⟩
  · exact ⟨⟨"ApplyGuardrail", "Allow", .one "bedrock:ApplyGuardrail", guardrailArn cfg G⟩,
      by simp [create_role, perm_policy], rfl, by simp [PolicyAction.toList], rfl⟩
  · rintro a r ⟨st, hmem, heff, hact, hres⟩
    simp [create_role, perm_policy] at hmem
    rcases hmem with h1 | h1 <;> subst h1
    · exact Or.inl hres.symm
    · exact Or.inr hres.symm
  · rintro r ⟨st, hmem, heff, hact, hres⟩
    simp [create_role, perm_policy] at hmem
    rcases hmem with h1 | h1 <;> subst h1
    · exact hres.symm
    · exact absurd hact (by simp [PolicyAction.toList])
  · rintro r ⟨st, hmem, heff, hact, hres⟩
    simp [create_role, perm_policy] at hmem
    rcases hmem with h1 | h1 <;> subst h1
    · exact hres.symm
    · exact absurd hact (by simp [PolicyAction.toList])
  · rintro r ⟨st, hmem, heff, hact, hres⟩
    simp [create_role, perm_policy] at hmem
    rcases hmem with h1 | h1 <;> subst h1
    · exact absurd hact (by simp [PolicyAction.toList])
    · exact hres.symm
  · intro st hmem
    simp [create_role, perm_policy] at hmem
    rcases hmem with h1 | h1 <;> subst h1
    · intro hmem'
      simp only [modelArn, String.mem_toList_append] at hmem'
      rcases hmem' with ((h | h) | h) | h
      · exact hlit1 h
      · exact hR h
      · exact hlit4 h
      · exact hM h
    · intro hmem'
      simp only [guardrailArn, String.mem_toList_append] at hmem'
      rcases hmem' with ((((h | h) | h) | h) | h) | h
      · exact hlit1 h
      · exact hR h
      · exact hlit2 h
      · exact hA h
      · exact hlit3 h
      · exact hG h

/-- C2 witness: the permission-policy theorem instantiated at the concrete
configuration of `main.py` and the guardrail id `"gidA"`. -/
theorem C2_perm_policy_witness :
    ('*' ∉ "gidA".toList ∧ '*' ∉ defaultConfig.foundationModel.toList ∧
      '*' ∉ defaultConfig.region.toList ∧ '*' ∉ defaultConfig.accountId.toList) ∧
    ((create_role defaultConfig "gidA").perm.grants "bedrock:InvokeModel"
        (modelArn defaultConfig) ∧
      (create_role defaultConfig "gidA").perm.grants "bedrock:InvokeModelWithResponseStream"
        (modelArn defaultConfig) ∧
      (create_role defaultConfig "gidA").perm.grants "bedrock:ApplyGuardrail"
        (guardrailArn defaultConfig "gidA") ∧
      (∀ a r, (create_role defaultConfig "gidA").perm.grants a r →
        r = modelArn defaultConfig ∨ r = guardrailArn defaultConfig "gidA") ∧
      (∀ r, (create_role defaultConfig "gidA").perm.grants "bedrock:InvokeModel" r →
        r = modelArn defaultConfig) ∧
      (∀ r, (create_role defaultConfig "gidA").perm.grants
        "bedrock:InvokeModelWithResponseStream" r → r = modelArn defaultConfig) ∧
      (∀ r, (create_role defaultConfig "gidA").perm.grants "bedrock:ApplyGuardrail" r →
        r = guardrailArn defaultConfig "gidA") ∧
      (∀ st ∈ (create_role defaultConfig "gidA").perm.statement,
        '*' ∉ st.resource.toList)) :=
  ⟨⟨by decide, by decide, by decide, by decide⟩,
    C2_perm_policy defaultConfig "gidA" (by decide) (by decide) (by decide) (by decide)⟩

/-! Claims C3 and C4: the readiness poll loops -/

/-- C3 counterexample: on the status sequence `[PENDING, FAILED]` the alias
readiness loop is still polling after the 2nd fetch (no failure is raised),
and if a 3rd status `PREPARED` follows, the loop performs that 3rd fetch and
returns normally — it never signals a readiness failure. -/
theorem C3_counterexample :
    aliasReadinessPoll ["PENDING", "FAILED"] = none ∧
    aliasReadinessPoll ["PENDING", "FAILED", "PREPARED"] = some 3 :=
  ⟨rfl, rfl⟩

/-- C3 (amended): on the status sequence `[PENDING, FAILED, ...]` the
agent-preparation loop raises its failure after the 2nd fetch and performs
no 3rd fetch, whatever statuses follow; the alias readiness loop, by
contrast, has no failure-state handling — after fetching `PENDING` and
`FAILED` it simply keeps polling the remaining statuses. -/
theorem C3_poll_failure (rest : List String) :
    agentPreparePoll ("PENDING" :: "FAILED" :: rest) = some (.failure, 2) ∧
    aliasReadinessPoll ("PENDING" :: "FAILED" :: rest) =
      (aliasReadinessPoll rest).map (· + 2) := by
  constructor
  · rfl
  · show ((aliasReadinessPoll rest).map (· + 1)).map (· + 1) =
      (aliasReadinessPoll rest).map (· + 2)
    cases aliasReadinessPoll rest <;> rfl

/-- C4 counterexample: on the status sequence `[PENDING, PENDING, PREPARED]`
the alias readiness loop does return success after its 3rd fetch, but the
alias section then issues one further `get_agent_alias` call (line 344) to
print the routed version, so alias status is fetched a 4th time after the
terminal state was observed. -/
theorem C4_counterexample :
    aliasReadinessPoll ["PENDING", "PENDING", "PREPARED"] = some 3 ∧
    aliasSectionFetchCount ["PENDING", "PENDING", "PREPARED"] = some 4 :=
  ⟨rfl, rfl⟩

/-- C4 (amended): on the status sequence `[PENDING, PENDING, PREPARED, ...]`
both poll loops issue exactly 3 status fetches and return success after the
3rd, never polling past the terminal state inside the loop, whatever
statuses follow; the alias section as a whole, however, issues one
additional `get_agent_alias` call after its loop exits, for a total of 4
fetches. -/
theorem C4_poll_success (rest : List String) :
    agentPreparePoll ("PENDING" :: "PENDING" :: "PREPARED" :: rest) = some (.success, 3) ∧
    aliasReadinessPoll ("PENDING" :: "PENDING" :: "PREPARED" :: rest) = some 3 ∧
    aliasSectionFetchCount ("PENDING" :: "PENDING" :: "PREPARED" :: rest) = some 4 :=
  ⟨rfl, rfl, rfl⟩

/-! Claims C5, C6, C7, C8, C9, C10: trace reporting and the stream loop -/

/-- The event sequence of the C5 scenario:
`[chunk "Hello ", chunk "world", trace (guardrail action NONE), chunk "!"]`. -/
def exampleEvents : List StreamEvent :=
  [ { chunk := some "Hello ", trace := none }
  , { chunk := some "world", trace := none }
  , { chunk := none, trace := some ⟨some ⟨some ⟨"NONE", [], []⟩⟩⟩ }
  , { chunk := some "!", trace := none } ]

/-- C5: the stream-reading loop is a function of the event sequence — on
the fixed sequence `[chunk "Hello ", chunk "world", trace NONE, chunk "!"]`
it emits exactly `"Hello world!"` and reports exactly one guardrail trace
with action `NONE`, and replaying the sequence any number of times yields
that same result every time. -/
theorem C5_stream_replay :
    (runLoop exampleEvents).stdout = "Hello world!" ∧
    (runLoop exampleEvents).reports.map TraceReport.action = ["NONE"] ∧
    ∀ n : Nat, (List.replicate n exampleEvents).map runLoop =
      List.replicate n (runLoop exampleEvents) := by
  refine ⟨rfl, rfl, fun n => ?_⟩
  simp

/-- C6: `check` reads the grounding score from index 0 and the relevance
score from index 1 of the contextual-grounding filter list of the first
assessment, and reports those two scores together with the overall action
of the response. -/
theorem C6_check_positional (resp : ApplyGuardrailResponse)
    (a0 : GuardrailAssessment) (arest : List GuardrailAssessment)
    (f0 f1 : GroundingFilter) (frest : List GroundingFilter)
    (ha : resp.assessments = a0 :: arest)
    (hf : a0.contextualGroundingPolicy.filters = f0 :: f1 :: frest) :
    check resp = some { action := resp.action, g_score := f0.score, r_score := f1.score } := by
  simp [check, ha, hf]

/-- A concrete grounding filter entry with score 9/10. -/
def exampleFilterG : GroundingFilter := ⟨(9 : Rat)/10⟩

/-- A concrete relevance filter entry with score 1/2. -/
def exampleFilterR : GroundingFilter := ⟨(1 : Rat)/2⟩

/-- A concrete assessment carrying the two filters in platform order. -/
def exampleAssessment : GuardrailAssessment := ⟨⟨[exampleFilterG, exampleFilterR]⟩⟩

/-- A concrete `apply_guardrail` response. -/
def exampleResponse : ApplyGuardrailResponse :=
  ⟨[exampleAssessment], "GUARDRAIL_INTERVENED"⟩

/-- C6 witness: the positional-extraction theorem instantiated at a
concrete response. -/
theorem C6_check_positional_witness :
    exampleResponse.assessments = exampleAssessment :: [] ∧
    exampleAssessment.contextualGroundingPolicy.filters =
      exampleFilterG :: exampleFilterR :: [] ∧
    check exampleResponse =
      some { action := exampleResponse.action
           , g_score := exampleFilterG.score, r_score := exampleFilterR.score } :=
  ⟨rfl, rfl,
    C6_check_positional exampleResponse exampleAssessment [] exampleFilterG exampleFilterR []
      rfl rfl⟩

/-- C7: for a guardrail trace with `inputAssessments = [A]` and
`outputAssessments = []`, `show_guardrail_trace` reports exactly one
INPUT-side line carrying `A` and no OUTPUT-side line; in general it
reports the INPUT assessments, in order, followed by the OUTPUT
assessments, in order. -/
theorem C7_trace_sides :
    (∀ act : String, ∀ A : Assessment,
      show_guardrail_trace ⟨some ⟨some ⟨act, [A], []⟩⟩⟩ =
        some { action := act, lines := [(Side.INPUT, A)] }) ∧
    (∀ act : String, ∀ ia oa : List Assessment,
      show_guardrail_trace ⟨some ⟨some ⟨act, ia, oa⟩⟩⟩ =
        some { action := act
             , lines := ia.map (fun a => (Side.INPUT, a))
                     ++ oa.map (fun a => (Side.OUTPUT, a)) }) :=
  ⟨fun _ _ => rfl, fun _ _ _ => rfl⟩

/-- Helper: running the loop body over an event list appends exactly the
concatenated chunk text to stdout and never touches `completion_text`. -/
theorem foldl_processEvent_spec (events : List StreamEvent) : ∀ st : LoopState,
    (events.foldl processEvent st).stdout = st.stdout ++ chunkConcat events ∧
    (events.foldl processEvent st).completion_text = st.completion_text := by
  induction events with
  | nil =>
    intro st
    exact ⟨(String.append_empty st.stdout).symm, rfl⟩
  | cons e rest ih =>
    intro st
    have hstep : (processEvent st e).stdout =
        st.stdout ++ (match e.chunk with | some s => s | none => "") ∧
        (processEvent st e).completion_text = st.completion_text := by
      cases hc : e.chunk <;> cases ht : e.trace <;>
        simp [processEvent, hc, ht, String.append_empty] <;>
        cases hsg : show_guardrail_trace _ <;> simp
    have h := ih (processEvent st e)
    rw [List.foldl_cons]
    refine ⟨?_, by rw [h.2, hstep.2]⟩
    rw [h.1, hstep.1]
    cases hc : e.chunk with
    | none => simp [chunkConcat, hc, String.append_empty]
    | some s => simp [chunkConcat, hc, String.append_assoc]

/-- C8 counterexample: after consuming the one-chunk stream
`[chunk "Hi"]`, the `completion_text` accumulator still holds `""`, not the
chunk concatenation `"Hi"`: the loop never assigns to it. -/
theorem C8_counterexample :
    (runLoop [⟨some "Hi", none⟩]).completion_text = "" ∧
    chunkConcat [⟨some "Hi", none⟩] = "Hi" ∧
    (runLoop [⟨some "Hi", none⟩]).completion_text ≠ chunkConcat [⟨some "Hi", none⟩] :=
  ⟨rfl, rfl, by decide⟩

/-- C8 (amended): after the loop consumes the stream to exhaustion, the
text it has written to stdout — not the `completion_text` variable, which
is initialised to `""` and never assigned again — equals the concatenation,
in delivery order, of the decoded text of every chunk event. -/
theorem C8_stdout_transcript (events : List StreamEvent) :
    (runLoop events).stdout = chunkConcat events ∧
    (runLoop events).completion_text = "" := by
  have h := foldl_processEvent_spec events initialLoopState
  unfold runLoop
  refine ⟨?_, h.2⟩
  rw [h.1]
  exact String.empty_append _

/-- C9 counterexample: an event that is neither a chunk nor a trace leaves
the loop state — stdout, reports, everything — exactly as the empty stream
does, so nothing whatsoever is logged for it. -/
theorem C9_counterexample :
    runLoop [⟨none, none⟩] = runLoop [] ∧ runLoop [] = initialLoopState :=
  ⟨rfl, rfl⟩

/-- C9 (amended): an event that is neither a recognized chunk nor a
recognized trace shape is silently skipped — not logged — and the loop
continues with the remaining events: the resulting state (emitted text and
reported traces) is identical to the run with that event absent. -/
theorem C9_skip_unrecognized (xs ys : List StreamEvent) (e : StreamEvent)
    (hc : e.chunk = none) (ht : e.trace = none) :
    runLoop (xs ++ e :: ys) = runLoop (xs ++ ys) := by
  unfold runLoop
  rw [List.foldl_append, List.foldl_append, List.foldl_cons]
  have : processEvent (xs.foldl processEvent initialLoopState) e =
      xs.foldl processEvent initialLoopState := by
    simp [processEvent, hc, ht]
  rw [this]

/-- C9 witness: the skip theorem instantiated on a concrete stream with a
keyless event between two chunks. -/
theorem C9_skip_unrecognized_witness :
    (⟨none, none⟩ : StreamEvent).chunk = none ∧
    (⟨none, none⟩ : StreamEvent).trace = none ∧
    runLoop ([⟨some "a", none⟩] ++ (⟨none, none⟩ : StreamEvent) :: [⟨some "b", none⟩]) =
      runLoop ([⟨some "a", none⟩] ++ [⟨some "b", none⟩]) :=
  ⟨rfl, rfl,
    C9_skip_unrecognized [⟨some "a", none⟩] [⟨some "b", none⟩] ⟨none, none⟩ rfl rfl⟩

/-- C10: chunk handling and trace handling are independent checks — an
event carrying both a chunk and a (recognized) trace has its chunk text
emitted and its trace reported in the same iteration. -/
theorem C10_chunk_and_trace (st : LoopState) (s : String)
    (tp : TracePart) (r : TraceReport) (h : show_guardrail_trace tp = some r) :
    processEvent st ⟨some s, some tp⟩ =
      { st with stdout := st.stdout ++ s, reports := st.reports ++ [r] } := by
  simp [processEvent, h]

/-- C10 witness: a single event carrying both `chunk "hi"` and a guardrail
trace with action `NONE` both extends stdout and appends the trace report. -/
theorem C10_chunk_and_trace_witness :
    show_guardrail_trace ⟨some ⟨some ⟨"NONE", [], []⟩⟩⟩ =
      some { action := "NONE", lines := [] } ∧
    processEvent initialLoopState ⟨some "hi", some ⟨some ⟨some ⟨"NONE", [], []⟩⟩⟩⟩ =
      { initialLoopState with
          stdout := initialLoopState.stdout ++ "hi"
        , reports := initialLoopState.reports ++ [{ action := "NONE", lines := [] }] } :=
  ⟨rfl, C10_chunk_and_trace initialLoopState "hi" ⟨some ⟨some ⟨"NONE", [], []⟩⟩⟩
    { action := "NONE", lines := [] } rfl⟩

end Bedrock
